import Mathlib

/-!
Verification development for the backend interop layer of the SYCL runtime
(`sycl/source/backend.cpp` and `sycl/source/interop_handle.cpp`).

The C++ code is shallowly embedded: every public entry point is modelled as a
pure Lean function that returns the list of backend (UR plugin) calls it
issues, in order, together with either the produced value or the SYCL
exception it throws.  Data that the native backend reports (created handles,
device lists, binary types, call results) is supplied by an explicit oracle
structure, universally quantified in the theorems, so the theorems hold for
every possible backend behaviour.
-/

/-- The `sycl::backend` enumeration (constructors named as in the source). -/
inductive backend
| opencl
| ext_oneapi_level_zero
| ext_oneapi_cuda
| ext_oneapi_hip
| ext_intel_esimd_emulator
| ext_oneapi_native_cpu
| all
deriving DecidableEq, Repr

/-- The `pi_platform_backend` enumeration (PI generation platform tags),
with one constructor per `PI_EXT_PLATFORM_BACKEND_*` enumerator. -/
inductive pi_platform_backend
| unknown
| level_zero
| opencl
| cuda
| hip
| esimd
| native_cpu
deriving DecidableEq, Repr

/-- The `ur_platform_backend_t` enumeration (UR generation platform tags). -/
inductive ur_platform_backend_t
| unknown
| level_zero
| opencl
| cuda
| hip
| native_cpu
deriving DecidableEq, Repr

/-- The `sycl::bundle_state` enumeration. -/
inductive bundle_state
| input
| object
| executable
deriving DecidableEq, Repr

/-- The `ur_program_binary_type_t` enumeration reported by
`urProgramGetBuildInfo(..., UR_PROGRAM_BUILD_INFO_BINARY_TYPE, ...)`. -/
inductive ur_program_binary_type_t
| none
| compiled_object
| library
| executable
deriving DecidableEq, Repr

/-- Backend call results (`ur_result_t`): success, the distinguished
`UR_RESULT_ERROR_UNSUPPORTED_FEATURE` code that triggers the legacy
fallback, and any other error code. -/
inductive ur_result_t
| success
| unsupported_feature
| other_error (code : Nat)
deriving DecidableEq, Repr

/-- The SYCL exceptions thrown by the embedded code.  Each constructor
corresponds to one `throw` site (or to `checkUrResult` raising an
`errc::build` error). -/
inductive SyclError
| unsupported_backend
| invalid_configuration
| state_mismatch
| build_failed (code : ur_result_t)
| invalid_kernel_bundle
| invalid_object_error
deriving DecidableEq, Repr

/-- One backend (UR plugin) call, as recorded in an operation's trace.
Native/UR handles are modelled as natural numbers.  For the
create-from-native-handle calls, the `Option Bool` argument records the
`isNativeHandleOwned` field of the native-properties struct passed to the
call, with `Option.none` meaning a null properties pointer was passed. -/
inductive Call
| platformCreateWithNativeHandle (nativeHandle : Nat) (isOwned : Option Bool)
| deviceCreateWithNativeHandle (nativeHandle : Nat) (isOwned : Option Bool)
| contextCreateWithNativeHandle (nativeHandle : Nat) (isOwned : Option Bool)
| queueCreateWithNativeHandle (nativeHandle : Nat) (ctx : Nat) (dev : Option Nat)
    (isOwned : Option Bool)
| eventCreateWithNativeHandle (nativeHandle : Nat) (ctx : Nat) (isOwned : Option Bool)
| eventRetain (ev : Nat)
| programCreateWithNativeHandle (nativeHandle : Nat) (ctx : Nat) (isOwned : Option Bool)
| programRetain (prog : Nat)
| programGetInfoNumDevices (prog : Nat)
| programGetInfoDevices (prog : Nat)
| programGetBuildInfoBinaryType (prog : Nat) (dev : Nat)
| programCompileExp (prog : Nat) (dev : Nat)
| programCompile (ctx : Nat) (prog : Nat)
| programBuildExp (prog : Nat) (dev : Nat)
| programBuild (ctx : Nat) (prog : Nat)
| programLinkExp (ctx : Nat) (dev : Nat) (prog : Nat)
| programLink (ctx : Nat) (prog : Nat)
| kernelCreateWithNativeHandle (nativeHandle : Nat) (ctx : Nat) (prog : Option Nat)
    (isOwned : Option Bool)
| kernelRetain (k : Nat)
| memGetNativeHandle (mem : Nat) (dev : Nat)
deriving DecidableEq, Repr

/-- Result type of every embedded entry point: the ordered trace of backend
calls issued, paired with either the value produced or the exception
thrown. -/
abbrev OpResult (α : Type) : Type := List Call × Except SyclError α

/-- The `getUrPlugin` dispatcher: resolves the plugin (call table) for a
backend, throwing a runtime-error exception for any backend other than the
four supported ones.  The plugin itself carries no data in this model (the
calls are recorded in the trace), so success is `Unit`. -/
def getUrPlugin (b : backend) : Except SyclError Unit :=
  match b with
  | backend.opencl => .ok ()
  | backend.ext_oneapi_level_zero => .ok ()
  | backend.ext_oneapi_cuda => .ok ()
  | backend.ext_oneapi_hip => .ok ()
  | _ => .error .unsupported_backend

/-- The `convertBackend` mapping (PI generation).  The C++ switch covers
every `pi_platform_backend` enumerator and returns in every arm; the throw
after the switch is unreachable for any value of the enumeration, which the
`Except`-valued embedding makes visible: every arm is `.ok`. -/
def convertBackend (t : pi_platform_backend) : Except SyclError backend :=
  match t with
  | .unknown => .ok backend.all
  | .level_zero => .ok backend.ext_oneapi_level_zero
  | .opencl => .ok backend.opencl
  | .cuda => .ok backend.ext_oneapi_cuda
  | .hip => .ok backend.ext_oneapi_hip
  | .esimd => .ok backend.ext_intel_esimd_emulator
  | .native_cpu => .ok backend.ext_oneapi_native_cpu

/-- The `convertUrBackend` mapping (UR generation).  The C++ switch has a
`default:` arm returning `backend::all`, so the function is total and the
unrecognized tags (here the `unknown` constructor) map to the sentinel. -/
def convertUrBackend (t : ur_platform_backend_t) : Except SyclError backend :=
  match t with
  | .level_zero => .ok backend.ext_oneapi_level_zero
  | .opencl => .ok backend.opencl
  | .cuda => .ok backend.ext_oneapi_cuda
  | .hip => .ok backend.ext_oneapi_hip
  | .native_cpu => .ok backend.ext_oneapi_native_cpu
  | _ => .ok backend.all

/-- A SYCL context as the importer sees it: its UR handle and the backend it
was created for (`ContextImpl->getBackend()`). -/
structure ContextModel where
  handle : Nat
  ctxBackend : backend
deriving DecidableEq, Repr

/-- Oracle for the handles the backend returns from the various
create-from-native-handle calls. -/
structure CreateOracle where
  createdPlatform : Nat
  createdDevice : Nat
  createdContext : Nat
  createdQueue : Nat
  createdEvent : Nat
  createdKernel : Nat

/-- The `make_platform` entry point.  It passes a null pointer (no native
properties struct at all) as the second argument of
`urPlatformCreateWithNativeHandle`; there is no ownership parameter. -/
def make_platform (o : CreateOracle) (nativeHandle : Nat) (b : backend) :
    OpResult Nat :=
  match getUrPlugin b with
  | .error e => ([], .error e)
  | .ok _ =>
    ([Call.platformCreateWithNativeHandle nativeHandle Option.none],
     .ok o.createdPlatform)

/-- The `make_device` entry point.  Like `make_platform` it passes null
properties to `urDeviceCreateWithNativeHandle` and has no ownership
parameter. -/
def make_device (o : CreateOracle) (nativeHandle : Nat) (b : backend) :
    OpResult Nat :=
  match getUrPlugin b with
  | .error e => ([], .error e)
  | .ok _ =>
    ([Call.deviceCreateWithNativeHandle nativeHandle Option.none],
     .ok o.createdDevice)

/-- The `make_context` entry point.  It builds a
`ur_context_native_properties_t` with `isNativeHandleOwned = false`
hard-coded (there is no `KeepOwnership` parameter) and passes it to
`urContextCreateWithNativeHandle`. -/
def make_context (o : CreateOracle) (nativeHandle : Nat) (b : backend) :
    OpResult Nat :=
  match getUrPlugin b with
  | .error e => ([], .error e)
  | .ok _ =>
    ([Call.contextCreateWithNativeHandle nativeHandle (some false)],
     .ok o.createdContext)

/-- The caller-supplied `property_list` of `make_queue`, reduced to the two
properties the embedded code inspects: the
`ext::intel::property::queue::compute_index` property and
`property::queue::in_order`. -/
structure PropertyList where
  hasComputeIndex : Bool
  hasInOrder : Bool
deriving DecidableEq, Repr

/-- The `make_queue` entry point.  After plugin resolution it rejects a
property list containing the compute-index property with an `errc::invalid`
exception before issuing any backend call; otherwise it encodes the
ownership flag as `isNativeHandleOwned = !KeepOwnership` and issues the
create call. -/
def make_queue (o : CreateOracle) (nativeHandle : Nat) (ctx : ContextModel)
    (dev : Option Nat) (keepOwnership : Bool) (propList : PropertyList)
    (b : backend) : OpResult Nat :=
  match getUrPlugin b with
  | .error e => ([], .error e)
  | .ok _ =>
    if propList.hasComputeIndex then
      ([], .error .invalid_configuration)
    else
      ([Call.queueCreateWithNativeHandle nativeHandle ctx.handle dev
          (some (!keepOwnership))],
       .ok o.createdQueue)

/-- The `make_event` entry point (ownership-taking overload).  It encodes
`isNativeHandleOwned = !KeepOwnership`, creates the event, and — only when
the `Backend` argument is `backend::opencl` — issues one extra
`urEventRetain` on the created event. -/
def make_event (o : CreateOracle) (nativeHandle : Nat) (ctx : ContextModel)
    (keepOwnership : Bool) (b : backend) : OpResult Nat :=
  match getUrPlugin b with
  | .error e => ([], .error e)
  | .ok _ =>
    ([Call.eventCreateWithNativeHandle nativeHandle ctx.handle
        (some (!keepOwnership))] ++
       (if b = backend.opencl then [Call.eventRetain o.createdEvent] else []),
     .ok o.createdEvent)

/-- The `make_event` overload without an ownership flag; it forwards with
`KeepOwnership = false`. -/
def make_event_default (o : CreateOracle) (nativeHandle : Nat)
    (ctx : ContextModel) (b : backend) : OpResult Nat :=
  make_event o nativeHandle ctx false b

/-- Oracle for the backend behaviour observed by `make_kernel_bundle`: the
program handle produced by the create call, the device list the program
reports, the per-(program, device) binary type, and the results of the
per-device compile/build/link calls (both the modern "Exp" entry points and
the legacy whole-program fallbacks).  `linkExpProg`/`linkProg` give the
program handle a successful link writes back through its out-parameter. -/
structure ProgramOracle where
  createdProgram : Nat
  programDevices : List Nat
  binaryType : Nat → Nat → ur_program_binary_type_t
  compileExpRes : Nat → Nat → ur_result_t
  compileRes : Nat → ur_result_t
  buildExpRes : Nat → Nat → ur_result_t
  buildRes : Nat → ur_result_t
  linkExpRes : Nat → Nat → ur_result_t
  linkExpProg : Nat → Nat → Nat
  linkRes : Nat → ur_result_t
  linkProg : Nat → Nat

/-- The `checkUrResult<errc::build>` helper: a non-success result is raised
as a build-failure exception carrying the code; success yields the value. -/
def checkUrResult (res : ur_result_t) (a : Nat) : Except SyclError Nat :=
  if res = ur_result_t.success then .ok a else .error (.build_failed res)

/-- The shared `case COMPILED_OBJECT: case LIBRARY:` arm of the `switch`
in `make_kernel_bundle`'s reconciliation loop: `input` is a state mismatch,
`executable` links (modern entry point first, legacy fallback on
`UR_RESULT_ERROR_UNSUPPORTED_FEATURE`, the out-parameter replacing the
program handle), `object` is a no-op. -/
def reconcilePartial (o : ProgramOracle) (ctx : Nat) (state : bundle_state)
    (prog : Nat) (dev : Nat) : OpResult Nat :=
  let query := Call.programGetBuildInfoBinaryType prog dev
  if state = bundle_state.input then
    ([query], .error .state_mismatch)
  else if state = bundle_state.executable then
    let res0 := o.linkExpRes prog dev
    if res0 = ur_result_t.unsupported_feature then
      ([query, Call.programLinkExp ctx dev prog, Call.programLink ctx prog],
       checkUrResult (o.linkRes prog) (o.linkProg prog))
    else
      ([query, Call.programLinkExp ctx dev prog],
       checkUrResult res0 (o.linkExpProg prog dev))
  else
    ([query], .ok prog)

/-- The body of `make_kernel_bundle`'s per-device reconciliation loop: the
binary-type query followed by the `switch (BinaryType)` statement, for one
device `dev` of program `prog`.  Returns the (possibly link-replaced)
program handle.  Each compile/build/link first attempts the modern "Exp"
entry point and falls back to the legacy whole-program entry point exactly
when the modern one returns `UR_RESULT_ERROR_UNSUPPORTED_FEATURE`. -/
def reconcileDevice (o : ProgramOracle) (ctx : Nat) (state : bundle_state)
    (prog : Nat) (dev : Nat) : OpResult Nat :=
  let query := Call.programGetBuildInfoBinaryType prog dev
  match o.binaryType prog dev with
  | .none =>
    if state = bundle_state.object then
      let res0 := o.compileExpRes prog dev
      if res0 = ur_result_t.unsupported_feature then
        ([query, Call.programCompileExp prog dev, Call.programCompile ctx prog],
         checkUrResult (o.compileRes prog) prog)
      else
        ([query, Call.programCompileExp prog dev], checkUrResult res0 prog)
    else if state = bundle_state.executable then
      let res0 := o.buildExpRes prog dev
      if res0 = ur_result_t.unsupported_feature then
        ([query, Call.programBuildExp prog dev, Call.programBuild ctx prog],
         checkUrResult (o.buildRes prog) prog)
      else
        ([query, Call.programBuildExp prog dev], checkUrResult res0 prog)
    else
      ([query], .ok prog)
  | .compiled_object =>
    reconcilePartial o ctx state prog dev
  | .library =>
    reconcilePartial o ctx state prog dev
  | .executable =>
    if state = bundle_state.input ∨ state = bundle_state.object then
      ([query], .error .state_mismatch)
    else
      ([query], .ok prog)

/-- The `for (auto &Dev : ProgramDevices)` loop: devices are processed in
the backend's enumeration order, threading the program handle (which a link
replaces); the first thrown exception aborts the whole operation, keeping
the calls issued so far. -/
def reconcileLoop (o : ProgramOracle) (ctx : Nat) (state : bundle_state) :
    Nat → List Nat → OpResult Nat
  | prog, [] => ([], .ok prog)
  | prog, dev :: devs =>
    match reconcileDevice o ctx state prog dev with
    | (calls, .error e) => (calls, .error e)
    | (calls, .ok prog1) =>
      let rest := reconcileLoop o ctx state prog1 devs
      (calls ++ rest.1, rest.2)

/-- A managed device wrapper, produced from a UR device handle by the
platform lookup in `make_kernel_bundle`'s `std::transform`. -/
structure DeviceW where
  urHandle : Nat
deriving DecidableEq, Repr

/-- The kernel bundle `make_kernel_bundle` returns: the target context, the
device set discovered from the program, and the device image's final
program handle and state. -/
structure KernelBundleModel where
  context : Nat
  devices : List DeviceW
  program : Nat
  state : bundle_state
deriving DecidableEq, Repr

/-- The `make_kernel_bundle` entry point: resolve the plugin; import the
native handle as a UR program with `isNativeHandleOwned = !KeepOwnership`;
when the target context's backend is OpenCL issue one extra
`urProgramRetain`; query the program's device list; run the per-device
reconciliation loop; then wrap the discovered devices (in backend order)
and the final program into a kernel bundle. -/
def make_kernel_bundle (o : ProgramOracle) (nativeHandle : Nat)
    (targetContext : ContextModel) (keepOwnership : Bool)
    (state : bundle_state) (b : backend) : OpResult KernelBundleModel :=
  match getUrPlugin b with
  | .error e => ([], .error e)
  | .ok _ =>
    let prog := o.createdProgram
    let calls0 :=
      [Call.programCreateWithNativeHandle nativeHandle targetContext.handle
         (some (!keepOwnership))] ++
      (if targetContext.ctxBackend = backend.opencl then
        [Call.programRetain prog]
      else []) ++
      [Call.programGetInfoNumDevices prog, Call.programGetInfoDevices prog]
    match reconcileLoop o targetContext.handle state prog o.programDevices with
    | (calls, .error e) => (calls0 ++ calls, .error e)
    | (calls, .ok finalProg) =>
      (calls0 ++ calls,
       .ok { context := targetContext.handle
             devices := o.programDevices.map DeviceW.mk
             program := finalProg
             state := state })

/-- The deprecated `make_kernel_bundle` overload without an ownership flag;
it forwards with `KeepOwnership = false`. -/
def make_kernel_bundle_default (o : ProgramOracle) (nativeHandle : Nat)
    (targetContext : ContextModel) (state : bundle_state) (b : backend) :
    OpResult KernelBundleModel :=
  make_kernel_bundle o nativeHandle targetContext false state b

/-- The executable kernel bundle passed to `make_kernel`, reduced to what
the function inspects: the list of device images, each represented by its
device image's UR program handle (`get_ur_program_ref`). -/
structure KernelBundleArg where
  imagePrograms : List Nat
deriving DecidableEq, Repr

/-- The `make_kernel` entry point (bundle-taking overload): resolve the
plugin; when the backend is Level Zero require the bundle to hold exactly
one device image (throwing a runtime-error exception otherwise) and take
that image's program, while every other backend passes a null program
handle with no image-count check; create the kernel with
`isNativeHandleOwned = !KeepOwnership`; and for OpenCL issue one extra
`urKernelRetain`. -/
def make_kernel (o : CreateOracle) (targetContext : ContextModel)
    (kernelBundle : KernelBundleArg) (nativeHandle : Nat)
    (keepOwnership : Bool) (b : backend) : OpResult Nat :=
  match getUrPlugin b with
  | .error e => ([], .error e)
  | .ok _ =>
    let progRes : Except SyclError (Option Nat) :=
      if b = backend.ext_oneapi_level_zero then
        if kernelBundle.imagePrograms.length ≠ 1 then
          .error .invalid_kernel_bundle
        else
          .ok kernelBundle.imagePrograms.head?
      else
        .ok Option.none
    match progRes with
    | .error e => ([], .error e)
    | .ok urProgram =>
      ([Call.kernelCreateWithNativeHandle nativeHandle targetContext.handle
          urProgram (some (!keepOwnership))] ++
         (if b = backend.opencl then [Call.kernelRetain o.createdKernel]
          else []),
       .ok o.createdKernel)

/-- The captured state of an `interop_handle`: the requirement-to-memory
associations (`MMemObjs`, pairs of requirement pointer and UR memory
object), and the bound queue, device and context. -/
structure InteropHandle where
  memObjs : List (Nat × Nat)
  queue : Nat
  device : Nat
  context : Nat
  queueBackend : backend
deriving DecidableEq, Repr

/-- Oracle for the native handle `urMemGetNativeHandle` reports for a
(memory object, device) pair. -/
structure MemOracle where
  memNativeHandle : Nat → Nat → Nat

/-- The `interop_handle::getNativeMem` accessor: `std::find_if` over the
captured associations comparing the requirement pointer; a missing
requirement throws `invalid_object_error` with no backend call; a found one
issues `urMemGetNativeHandle` on the associated memory object and the bound
device and returns the reported handle. -/
def getNativeMem (o : MemOracle) (h : InteropHandle) (req : Nat) :
    OpResult Nat :=
  match h.memObjs.find? (fun e => e.1 == req) with
  | Option.none => ([], .error .invalid_object_error)
  | some e =>
    ([Call.memGetNativeHandle e.2 h.device],
     .ok (o.memNativeHandle e.2 h.device))

/-- The `interop_handle::get_backend` accessor. -/
def get_backend (h : InteropHandle) : backend := h.queueBackend

/-- Classifies a backend call as a compile call (modern or legacy). -/
def isCompileCall : Call → Bool
  | .programCompileExp _ _ => true
  | .programCompile _ _ => true
  | _ => false

/-- Classifies a backend call as a build call (modern or legacy). -/
def isBuildCall : Call → Bool
  | .programBuildExp _ _ => true
  | .programBuild _ _ => true
  | _ => false

/-- Classifies a backend call as a link call (modern or legacy). -/
def isLinkCall : Call → Bool
  | .programLinkExp _ _ _ => true
  | .programLink _ _ => true
  | _ => false

/-- Classifies a backend call as a `urProgramRetain`. -/
def isProgramRetain : Call → Bool
  | .programRetain _ => true
  | _ => false

/-- Classifies a backend call as a `urEventRetain`. -/
def isEventRetain : Call → Bool
  | .eventRetain _ => true
  | _ => false

/-- Number of `urProgramRetain` calls in a trace. -/
def countProgramRetains (calls : List Call) : Nat :=
  (calls.filter isProgramRetain).length

/-- Number of `urEventRetain` calls in a trace. -/
def countEventRetains (calls : List Call) : Nat :=
  (calls.filter isEventRetain).length

/-- The `isNativeHandleOwned` values passed by the create-from-native-handle
calls of a trace, in order; `Option.none` records a call whose properties
pointer was null (no ownership flag passed at all). -/
def ownershipFlagsPassed (calls : List Call) : List (Option Bool) :=
  calls.filterMap fun c =>
    match c with
    | .platformCreateWithNativeHandle _ f => some f
    | .deviceCreateWithNativeHandle _ f => some f
    | .contextCreateWithNativeHandle _ f => some f
    | .queueCreateWithNativeHandle _ _ _ f => some f
    | .eventCreateWithNativeHandle _ _ f => some f
    | .programCreateWithNativeHandle _ _ f => some f
    | .kernelCreateWithNativeHandle _ _ _ f => some f
    | _ => Option.none

/-- The exception an operation throws, if any. -/
def thrownError {α : Type} (r : OpResult α) : Option SyclError :=
  match r.2 with
  | .error e => some e
  | .ok _ => Option.none

/-- Modelled from the spec: the invariant's compatibility relation between a
device's queried binary type and the requested bundle state.  The
incompatible pairs are exactly the spec's `StateMismatch` rows:
`(CompiledObject|Library, Input)` and `(Executable, Input|Object)`. -/
def specCompatible (bt : ur_program_binary_type_t) (st : bundle_state) : Bool :=
  match bt, st with
  | .compiled_object, .input => false
  | .library, .input => false
  | .executable, .input => false
  | .executable, .object => false
  | _, _ => true

lemma reconcileDevice_no_retains (o : ProgramOracle) (ctx : Nat)
    (st : bundle_state) (prog dev : Nat) :
    (reconcileDevice o ctx st prog dev).1.filter isProgramRetain = [] := by
  unfold reconcileDevice reconcilePartial
  cases o.binaryType prog dev <;> cases st <;> dsimp only <;>
    split_ifs <;> rfl

lemma reconcileDevice_no_flags (o : ProgramOracle) (ctx : Nat)
    (st : bundle_state) (prog dev : Nat) :
    ownershipFlagsPassed (reconcileDevice o ctx st prog dev).1 = [] := by
  unfold reconcileDevice reconcilePartial
  cases o.binaryType prog dev <;> cases st <;> dsimp only <;>
    split_ifs <;> rfl

lemma reconcileLoop_no_retains (o : ProgramOracle) (ctx : Nat)
    (st : bundle_state) (devs : List Nat) : ∀ prog : Nat,
    (reconcileLoop o ctx st prog devs).1.filter isProgramRetain = [] := by
  induction devs with
  | nil => intro prog; rfl
  | cons d ds ih =>
    intro prog
    have hdev := reconcileDevice_no_retains o ctx st prog d
    unfold reconcileLoop
    cases h : reconcileDevice o ctx st prog d with
    | mk calls r =>
      rw [h] at hdev
      cases r with
      | error e => exact hdev
      | ok prog1 => simpa [List.filter_append, hdev] using ih prog1

lemma ownershipFlagsPassed_append (a b : List Call) :
    ownershipFlagsPassed (a ++ b) =
      ownershipFlagsPassed a ++ ownershipFlagsPassed b := by
  simp [ownershipFlagsPassed, List.filterMap_append]

lemma reconcileLoop_no_flags (o : ProgramOracle) (ctx : Nat)
    (st : bundle_state) (devs : List Nat) : ∀ prog : Nat,
    ownershipFlagsPassed (reconcileLoop o ctx st prog devs).1 = [] := by
  induction devs with
  | nil => intro prog; rfl
  | cons d ds ih =>
    intro prog
    have hdev := reconcileDevice_no_flags o ctx st prog d
    unfold reconcileLoop
    cases h : reconcileDevice o ctx st prog d with
    | mk calls r =>
      rw [h] at hdev
      cases r with
      | error e => exact hdev
      | ok prog1 =>
        rw [ownershipFlagsPassed_append,
          show ownershipFlagsPassed calls = [] from hdev, ih prog1]
        rfl

lemma reconcileDevice_query_mem (o : ProgramOracle) (ctx : Nat)
    (st : bundle_state) (prog dev pr d : Nat)
    (hmem : Call.programGetBuildInfoBinaryType pr d ∈
      (reconcileDevice o ctx st prog dev).1) :
    pr = prog ∧ d = dev := by
  unfold reconcileDevice reconcilePartial at hmem
  cases hbt : o.binaryType prog dev <;> rw [hbt] at hmem <;> cases st <;>
    dsimp only at hmem <;> split_ifs at hmem <;> simp_all

lemma reconcileDevice_ok_not_mismatch (o : ProgramOracle) (ctx : Nat)
    (st : bundle_state) (prog dev p1 : Nat)
    (hok : (reconcileDevice o ctx st prog dev).2 = .ok p1) :
    specCompatible (o.binaryType prog dev) st = true := by
  unfold reconcileDevice reconcilePartial at hok
  cases hbt : o.binaryType prog dev <;> rw [hbt] at hok <;> cases st <;>
    first
    | rfl
    | (dsimp only at hok; split_ifs at hok <;> simp_all)

lemma reconcileDevice_ok_compatible (o : ProgramOracle) (ctx : Nat)
    (st : bundle_state) (prog dev p1 : Nat)
    (hok : (reconcileDevice o ctx st prog dev).2 = .ok p1)
    (pr d : Nat)
    (hmem : Call.programGetBuildInfoBinaryType pr d ∈
      (reconcileDevice o ctx st prog dev).1) :
    specCompatible (o.binaryType pr d) st = true := by
  obtain ⟨hpr, hd⟩ := reconcileDevice_query_mem o ctx st prog dev pr d hmem
  rw [hpr, hd]
  exact reconcileDevice_ok_not_mismatch o ctx st prog dev p1 hok

lemma reconcileLoop_ok_compatible (o : ProgramOracle) (ctx : Nat)
    (st : bundle_state) (devs : List Nat) : ∀ (prog p1 : Nat),
    (reconcileLoop o ctx st prog devs).2 = .ok p1 →
    ∀ pr d, Call.programGetBuildInfoBinaryType pr d ∈
      (reconcileLoop o ctx st prog devs).1 →
    specCompatible (o.binaryType pr d) st = true := by
  induction devs with
  | nil => intro prog p1 _ pr d hmem; cases hmem
  | cons dv ds ih =>
    intro prog p1 hok pr d hmem
    unfold reconcileLoop at hok hmem
    cases h : reconcileDevice o ctx st prog dv with
    | mk calls r =>
      rw [h] at hok hmem
      cases r with
      | error e => cases hok
      | ok prog1 =>
        rcases List.mem_append.mp hmem with hL | hR
        · exact reconcileDevice_ok_compatible o ctx st prog dv prog1
            (by rw [h]) pr d (by rw [h]; exact hL)
        · exact ih prog1 p1 hok pr d hR

/-- A concrete create oracle (handles 1..6) for evaluating theorems. -/
def testCreate : CreateOracle := ⟨1, 2, 3, 4, 5, 6⟩

/-- A concrete program oracle: the imported program is handle 1, it reports
one device (handle 5) whose binary type is `NONE`, and every backend call
succeeds. -/
def oracleNoneOk : ProgramOracle where
  createdProgram := 1
  programDevices := [5]
  binaryType := fun _ _ => ur_program_binary_type_t.none
  compileExpRes := fun _ _ => ur_result_t.success
  compileRes := fun _ => ur_result_t.success
  buildExpRes := fun _ _ => ur_result_t.success
  buildRes := fun _ => ur_result_t.success
  linkExpRes := fun _ _ => ur_result_t.success
  linkExpProg := fun _ _ => 8
  linkRes := fun _ => ur_result_t.success
  linkProg := fun _ => 9

/-- Like `oracleNoneOk`, but the modern compile entry point reports
`UNSUPPORTED_FEATURE`, exercising the legacy fallback. -/
def oracleCompileFallback : ProgramOracle :=
  { oracleNoneOk with
    compileExpRes := fun _ _ => ur_result_t.unsupported_feature }

/-- C4: both platform-tag to backend mapping functions are total — every
tag value of either generation returns a defined backend and never fails —
and the unrecognized tags map to the `backend::all` sentinel. -/
theorem convert_backend_mappings_total :
    (∀ t : pi_platform_backend, ∃ bk : backend, convertBackend t = .ok bk) ∧
    (∀ t : ur_platform_backend_t, ∃ bk : backend, convertUrBackend t = .ok bk) ∧
    convertBackend pi_platform_backend.unknown = .ok backend.all ∧
    convertUrBackend ur_platform_backend_t.unknown = .ok backend.all := by
  refine ⟨fun t => ?_, fun t => ?_, rfl, rfl⟩ <;> cases t <;> exact ⟨_, rfl⟩

/-- C3 counterexample: at native handle 7 on OpenCL, `make_platform` issues
its create call with a null properties pointer — no `isNativeHandleOwned`
value is passed at all (the operation has no `KeepOwnership` parameter) —
and `make_context` passes a property hard-coded to `false`; neither value
can equal the negation of a caller ownership flag in the way the claim
requires of every import operation. -/
theorem make_platform_no_ownership_flag :
    ownershipFlagsPassed (make_platform testCreate 7 backend.opencl).1 =
      [(Option.none : Option Bool)] ∧
    ownershipFlagsPassed (make_context testCreate 7 backend.opencl).1 =
      [some false] ∧
    (Option.none : Option Bool) ≠ some true ∧
    (Option.none : Option Bool) ≠ some false :=
  ⟨rfl, rfl, by decide, by decide⟩

/-- C3 (amended): `make_queue`, `make_event`, `make_kernel_bundle` and
`make_kernel` each pass exactly one create-from-native-handle ownership
property with `isNativeHandleOwned = !KeepOwnership`; `make_platform` and
`make_device` pass a null properties pointer (no flag at all) and
`make_context` passes a property fixed to `false` — those three take no
`KeepOwnership` flag. -/
theorem create_ownership_flags (co : CreateOracle) (po : ProgramOracle)
    (nh : Nat) (ctx : ContextModel) (dev : Option Nat) (keep : Bool)
    (pl : PropertyList) (st : bundle_state) (kb : KernelBundleArg)
    (b : backend) (hb : getUrPlugin b = .ok ())
    (hci : pl.hasComputeIndex = false)
    (hlz : b = backend.ext_oneapi_level_zero → kb.imagePrograms.length = 1) :
    ownershipFlagsPassed (make_platform co nh b).1 =
      [(Option.none : Option Bool)] ∧
    ownershipFlagsPassed (make_device co nh b).1 =
      [(Option.none : Option Bool)] ∧
    ownershipFlagsPassed (make_context co nh b).1 = [some false] ∧
    ownershipFlagsPassed (make_queue co nh ctx dev keep pl b).1 =
      [some (!keep)] ∧
    ownershipFlagsPassed (make_event co nh ctx keep b).1 = [some (!keep)] ∧
    ownershipFlagsPassed (make_kernel_bundle po nh ctx keep st b).1 =
      [some (!keep)] ∧
    ownershipFlagsPassed (make_kernel co ctx kb nh keep b).1 =
      [some (!keep)] := by
  refine ⟨?_, ?_, ?_, ?_, ?_, ?_, ?_⟩
  · unfold make_platform; rw [hb]; rfl
  · unfold make_device; rw [hb]; rfl
  · unfold make_context; rw [hb]; rfl
  · unfold make_queue; rw [hb]; simp [hci, ownershipFlagsPassed]
  · unfold make_event; rw [hb]
    by_cases hbo : b = backend.opencl <;> simp [hbo, ownershipFlagsPassed]
  · unfold make_kernel_bundle; rw [hb]
    dsimp only
    cases hloop : reconcileLoop po ctx.handle st po.createdProgram
        po.programDevices with
    | mk calls r =>
      have h0 := reconcileLoop_no_flags po ctx.handle st
        po.programDevices po.createdProgram
      rw [hloop] at h0
      dsimp only at h0
      simp only [ownershipFlagsPassed] at h0
      cases r <;>
        by_cases hcb : ctx.ctxBackend = backend.opencl <;>
          simp [hcb, ownershipFlagsPassed, List.filterMap_append, h0]
  · unfold make_kernel; rw [hb]
    by_cases hlz2 : b = backend.ext_oneapi_level_zero
    · have hlen := hlz hlz2
      by_cases hbo : b = backend.opencl <;>
        simp [hlz2, hlen, hbo, ownershipFlagsPassed]
    · by_cases hbo : b = backend.opencl <;>
        simp [hlz2, hbo, ownershipFlagsPassed]

/-- C3 witness: the amended theorem evaluated at OpenCL with
`KeepOwnership = true`: the queue create call carries
`isNativeHandleOwned = false`. -/
theorem create_ownership_flags_witness :
    ownershipFlagsPassed
      (make_queue testCreate 7 ⟨10, backend.opencl⟩ Option.none true
        ⟨false, false⟩ backend.opencl).1 = [some (!true)] :=
  (create_ownership_flags testCreate oracleNoneOk 7 ⟨10, backend.opencl⟩
    Option.none true ⟨false, false⟩ bundle_state.input ⟨[2]⟩ backend.opencl
    rfl rfl (fun h => absurd h (by decide))).2.2.2.1

/-- C7 counterexample: with the unsupported backend `backend::all` and a
property list containing the compute-index property, `make_queue` throws
the plugin resolver's unsupported-backend error (an `errc::runtime`
exception raised before the property check), not the `errc::invalid`
`InvalidConfiguration` error the claim promises for every such property
list. -/
theorem make_queue_compute_index_unsupported_backend :
    thrownError (make_queue testCreate 7 ⟨10, backend.all⟩ Option.none false
      ⟨true, false⟩ backend.all) = some SyclError.unsupported_backend ∧
    some SyclError.unsupported_backend ≠
      some SyclError.invalid_configuration :=
  ⟨rfl, by decide⟩

/-- C7 (amended): for every backend the plugin resolver accepts, a property
list containing the compute-index queue property makes `make_queue` throw
`errc::invalid` with an empty call trace — no backend call, in particular
no create-from-native-handle call, precedes the failure. -/
theorem make_queue_rejects_compute_index (co : CreateOracle) (nh : Nat)
    (ctx : ContextModel) (dev : Option Nat) (keep : Bool)
    (pl : PropertyList) (b : backend) (hb : getUrPlugin b = .ok ())
    (hci : pl.hasComputeIndex = true) :
    make_queue co nh ctx dev keep pl b =
      ([], .error SyclError.invalid_configuration) := by
  unfold make_queue; rw [hb]; simp [hci]

/-- C7 witness: the amended theorem at OpenCL with the compute-index
property set. -/
theorem make_queue_rejects_compute_index_witness :
    make_queue testCreate 7 ⟨10, backend.opencl⟩ Option.none false
      ⟨true, false⟩ backend.opencl =
      ([], .error SyclError.invalid_configuration) :=
  make_queue_rejects_compute_index testCreate 7 ⟨10, backend.opencl⟩
    Option.none false ⟨true, false⟩ backend.opencl rfl rfl

lemma find_first_match {α : Type} (p : α → Bool) :
    ∀ (pre : List α) (x : α) (post : List α),
    (∀ e ∈ pre, p e = false) → p x = true →
    (pre ++ x :: post).find? p = some x := by
  intro pre
  induction pre with
  | nil => intro x post _ hx; simp [List.find?, hx]
  | cons a asTail ih =>
    intro x post hpre hx
    have ha : p a = false := hpre a (by simp)
    simp only [List.cons_append, List.find?, ha]
    exact ih x post (fun e he => hpre e (by simp [he])) hx

/-- C9: the `getNativeMem` contract.  If no captured association matches
the requirement, the accessor throws `invalid_object_error` with an empty
trace (no backend call); if the requirement is registered, with `m` the
memory object of the first matching association, the accessor issues
exactly one `urMemGetNativeHandle` on `m` and the bound device and returns
the handle the backend reports.  (The embedding is a pure function of the
captured handle state, which it leaves untouched.) -/
theorem getNativeMem_contract (o : MemOracle) (h : InteropHandle)
    (req : Nat) :
    ((∀ e ∈ h.memObjs, e.1 ≠ req) →
      getNativeMem o h req = ([], .error SyclError.invalid_object_error)) ∧
    (∀ pre m post, h.memObjs = pre ++ (req, m) :: post →
      (∀ e ∈ pre, e.1 ≠ req) →
      getNativeMem o h req =
        ([Call.memGetNativeHandle m h.device],
         .ok (o.memNativeHandle m h.device))) := by
  constructor
  · intro hnone
    have hfind : h.memObjs.find? (fun e => e.1 == req) = Option.none := by
      apply List.find?_eq_none.mpr
      intro e he
      simpa using hnone e he
    unfold getNativeMem
    rw [hfind]
  · intro pre m post hsplit hpre
    have hfind : h.memObjs.find? (fun e => e.1 == req) = some (req, m) := by
      rw [hsplit]
      exact find_first_match (fun e => e.1 == req) pre (req, m) post
        (fun e he => by simpa using hpre e he) (by simp)
    unfold getNativeMem
    rw [hfind]

/-- C9 witness: a handle capturing a single association for requirement 1;
querying requirement 2 throws with no backend call. -/
theorem getNativeMem_contract_witness :
    getNativeMem ⟨fun m d => m + d⟩ ⟨[(1, 100)], 4, 5, 6, backend.opencl⟩ 2 =
      ([], .error SyclError.invalid_object_error) :=
  (getNativeMem_contract ⟨fun m d => m + d⟩
    ⟨[(1, 100)], 4, 5, 6, backend.opencl⟩ 2).1 (by decide)

/-- C10 counterexample: `backend::all` is not Level Zero, yet `make_kernel`
with it issues no kernel-create call at all (so no null program handle is
passed): it throws the resolver's unsupported-backend error first.  The
claim's "for every other backend ... a null program handle is passed to
the kernel-create call" therefore fails at this input. -/
theorem make_kernel_all_backend_no_create :
    (make_kernel testCreate ⟨10, backend.all⟩ ⟨[]⟩ 7 false backend.all).1 =
      [] ∧
    thrownError
      (make_kernel testCreate ⟨10, backend.all⟩ ⟨[]⟩ 7 false backend.all) =
      some SyclError.unsupported_backend :=
  ⟨rfl, rfl⟩

/-- C10 (amended): when the backend is Level Zero, a bundle without exactly
one device image makes `make_kernel` throw a runtime-error exception with
an empty trace (before the kernel-create call); for every other *supported*
backend the image count is not inspected — the call succeeds for an
arbitrary bundle — and the kernel-create call (the first call of the
trace) receives a null program handle.  Unsupported backends fail at
plugin resolution before any check or call. -/
theorem make_kernel_image_count (co : CreateOracle) (ctx : ContextModel)
    (kb : KernelBundleArg) (nh : Nat) (keep : Bool) (b : backend)
    (hb : getUrPlugin b = .ok ()) :
    (b = backend.ext_oneapi_level_zero → kb.imagePrograms.length ≠ 1 →
      make_kernel co ctx kb nh keep b =
        ([], .error SyclError.invalid_kernel_bundle)) ∧
    (b ≠ backend.ext_oneapi_level_zero →
      (make_kernel co ctx kb nh keep b).1.head? =
        some (Call.kernelCreateWithNativeHandle nh ctx.handle Option.none
          (some (!keep))) ∧
      (make_kernel co ctx kb nh keep b).2 = .ok co.createdKernel) := by
  constructor
  · intro hlz hlen
    unfold make_kernel; rw [hb]; simp [hlz, hlen]
  · intro hne
    unfold make_kernel; rw [hb]
    by_cases hbo : b = backend.opencl <;> simp [hne, hbo]

/-- C10 witness: the amended theorem at CUDA with an empty bundle. -/
theorem make_kernel_image_count_witness :
    (make_kernel testCreate ⟨10, backend.ext_oneapi_cuda⟩ ⟨[]⟩ 7 false
        backend.ext_oneapi_cuda).1.head? =
      some (Call.kernelCreateWithNativeHandle 7 10 Option.none
        (some (!false))) ∧
    (make_kernel testCreate ⟨10, backend.ext_oneapi_cuda⟩ ⟨[]⟩ 7 false
        backend.ext_oneapi_cuda).2 = .ok testCreate.createdKernel :=
  (make_kernel_image_count testCreate ⟨10, backend.ext_oneapi_cuda⟩ ⟨[]⟩ 7
    false backend.ext_oneapi_cuda rfl).2 (by decide)

/-- C6 counterexample: with the `Backend` argument equal to OpenCL (family
A) but a target context whose backend is CUDA, `make_kernel_bundle` issues
no `urProgramRetain` at all — the code keys the retain on
`ContextImpl->getBackend()`, not on the `Backend` parameter — so the claim
that the retain happens exactly when the backend family is A fails. -/
theorem make_kernel_bundle_retain_keyed_on_context :
    countProgramRetains
      (make_kernel_bundle oracleNoneOk 7 ⟨10, backend.ext_oneapi_cuda⟩ false
        bundle_state.object backend.opencl).1 = 0 ∧
    countProgramRetains
      (make_kernel_bundle oracleNoneOk 7 ⟨10, backend.ext_oneapi_cuda⟩ false
        bundle_state.object backend.opencl).1 ≠ 1 :=
  ⟨rfl, by decide⟩

/-- C6 (amended): `make_event` issues exactly one extra `urEventRetain`
exactly when its `Backend` argument is OpenCL; `make_kernel_bundle` — for a
`Backend` argument the resolver accepts — issues exactly one extra
`urProgramRetain` exactly when the *target context's* backend is OpenCL. -/
theorem opencl_retain_correction (co : CreateOracle) (po : ProgramOracle)
    (nh : Nat) (ctx : ContextModel) (keep : Bool) (st : bundle_state)
    (b : backend) (hb : getUrPlugin b = .ok ()) :
    countEventRetains (make_event co nh ctx keep b).1 =
      (if b = backend.opencl then 1 else 0) ∧
    countProgramRetains (make_kernel_bundle po nh ctx keep st b).1 =
      (if ctx.ctxBackend = backend.opencl then 1 else 0) := by
  constructor
  · unfold make_event; rw [hb]
    by_cases hbo : b = backend.opencl <;>
      simp [hbo, countEventRetains, isEventRetain]
  · unfold make_kernel_bundle; rw [hb]
    dsimp only
    cases hloop : reconcileLoop po ctx.handle st po.createdProgram
        po.programDevices with
    | mk calls r =>
      have h0 := reconcileLoop_no_retains po ctx.handle st
        po.programDevices po.createdProgram
      rw [hloop] at h0
      dsimp only at h0
      cases r <;>
        by_cases hcb : ctx.ctxBackend = backend.opencl <;>
          simp [hcb, countProgramRetains, List.filter_append, h0,
            isProgramRetain]

/-- C6 witness: the amended theorem at OpenCL with an OpenCL context. -/
theorem opencl_retain_correction_witness :
    countEventRetains
      (make_event testCreate 7 ⟨10, backend.opencl⟩ false backend.opencl).1 =
      (if backend.opencl = backend.opencl then 1 else 0) :=
  (opencl_retain_correction testCreate oracleNoneOk 7 ⟨10, backend.opencl⟩
    false bundle_state.object backend.opencl rfl).1

/-- C1: the reconciler state table of `make_kernel_bundle`'s per-device
loop.  `(None, Object)` issues a compile call and `(None, Executable)` a
build call; `(CompiledObject|Library, Object)` and
`(Executable, Executable)` perform no backend action beyond the binary-type
query and leave the program unchanged; `(CompiledObject|Library,
Executable)` issues a link call; `(CompiledObject|Library, Input)`,
`(Executable, Input)` and `(Executable, Object)` throw the state-mismatch
exception with no action. -/
theorem reconcile_state_table (o : ProgramOracle) (ctx prog dev : Nat) :
    (o.binaryType prog dev = ur_program_binary_type_t.none →
      (∃ c ∈ (reconcileDevice o ctx bundle_state.object prog dev).1,
        isCompileCall c = true) ∧
      (∃ c ∈ (reconcileDevice o ctx bundle_state.executable prog dev).1,
        isBuildCall c = true)) ∧
    ((o.binaryType prog dev = ur_program_binary_type_t.compiled_object ∨
      o.binaryType prog dev = ur_program_binary_type_t.library) →
      reconcileDevice o ctx bundle_state.object prog dev =
        ([Call.programGetBuildInfoBinaryType prog dev], .ok prog) ∧
      (∃ c ∈ (reconcileDevice o ctx bundle_state.executable prog dev).1,
        isLinkCall c = true) ∧
      reconcileDevice o ctx bundle_state.input prog dev =
        ([Call.programGetBuildInfoBinaryType prog dev],
         .error SyclError.state_mismatch)) ∧
    (o.binaryType prog dev = ur_program_binary_type_t.executable →
      reconcileDevice o ctx bundle_state.executable prog dev =
        ([Call.programGetBuildInfoBinaryType prog dev], .ok prog) ∧
      reconcileDevice o ctx bundle_state.input prog dev =
        ([Call.programGetBuildInfoBinaryType prog dev],
         .error SyclError.state_mismatch) ∧
      reconcileDevice o ctx bundle_state.object prog dev =
        ([Call.programGetBuildInfoBinaryType prog dev],
         .error SyclError.state_mismatch)) := by
  refine ⟨fun hbt => ⟨?_, ?_⟩, fun hbt => ⟨?_, ?_, ?_⟩, fun hbt => ⟨?_, ?_, ?_⟩⟩
  · unfold reconcileDevice; rw [hbt]; dsimp only
    by_cases hres : o.compileExpRes prog dev = ur_result_t.unsupported_feature <;>
      simp [hres, isCompileCall]
  · unfold reconcileDevice; rw [hbt]; dsimp only
    by_cases hres : o.buildExpRes prog dev = ur_result_t.unsupported_feature <;>
      simp [hres, isBuildCall]
  · cases hbt with
    | inl h => unfold reconcileDevice reconcilePartial; rw [h]; simp
    | inr h => unfold reconcileDevice reconcilePartial; rw [h]; simp
  · cases hbt with
    | inl h =>
      unfold reconcileDevice reconcilePartial; rw [h]; dsimp only
      by_cases hres : o.linkExpRes prog dev = ur_result_t.unsupported_feature <;>
        simp [hres, isLinkCall]
    | inr h =>
      unfold reconcileDevice reconcilePartial; rw [h]; dsimp only
      by_cases hres : o.linkExpRes prog dev = ur_result_t.unsupported_feature <;>
        simp [hres, isLinkCall]
  · cases hbt with
    | inl h => unfold reconcileDevice reconcilePartial; rw [h]; simp
    | inr h => unfold reconcileDevice reconcilePartial; rw [h]; simp
  · unfold reconcileDevice; rw [hbt]; simp
  · unfold reconcileDevice; rw [hbt]; simp
  · unfold reconcileDevice; rw [hbt]; simp

/-- C1 witness: with the all-succeeding oracle reporting binary type
`NONE`, the pair (None, Object) issues a compile call. -/
theorem reconcile_state_table_witness :
    ∃ c ∈ (reconcileDevice oracleNoneOk 10 bundle_state.object 1 5).1,
      isCompileCall c = true :=
  ((reconcile_state_table oracleNoneOk 10 1 5).1 rfl).1

/-- C2: whenever `make_kernel_bundle` returns a bundle instead of
throwing, every per-device binary type the backend reported during
reconciliation (each binary-type query recorded in the trace) was
compatible with the requested state — for no reported binary-type value
does the operation succeed with an incompatible device. -/
theorem make_kernel_bundle_success_compatible (po : ProgramOracle)
    (nh : Nat) (ctx : ContextModel) (keep : Bool) (st : bundle_state)
    (b : backend) (kb : KernelBundleModel)
    (hok : (make_kernel_bundle po nh ctx keep st b).2 = .ok kb) :
    ∀ pr d, Call.programGetBuildInfoBinaryType pr d ∈
        (make_kernel_bundle po nh ctx keep st b).1 →
      specCompatible (po.binaryType pr d) st = true := by
  intro pr d hmem
  unfold make_kernel_bundle at hok hmem
  cases hb : getUrPlugin b with
  | error e => rw [hb] at hok; simp at hok
  | ok u =>
    rw [hb] at hok hmem
    dsimp only at hok hmem
    cases hloop : reconcileLoop po ctx.handle st po.createdProgram
        po.programDevices with
    | mk calls r =>
      rw [hloop] at hok hmem
      cases r with
      | error e => simp at hok
      | ok fin =>
        dsimp only at hok hmem
        rcases List.mem_append.mp hmem with h0 | hC
        · by_cases hcb : ctx.ctxBackend = backend.opencl <;>
            simp [hcb] at h0
        · exact reconcileLoop_ok_compatible po ctx.handle st
            po.programDevices po.createdProgram fin (by rw [hloop]) pr d
            (by rw [hloop]; exact hC)

/-- C2 witness: a successful run on the all-succeeding one-device oracle;
the device's queried binary type was compatible with the requested
object state. -/
theorem make_kernel_bundle_success_compatible_witness :
    specCompatible (oracleNoneOk.binaryType 1 5) bundle_state.object =
      true :=
  make_kernel_bundle_success_compatible oracleNoneOk 7
    ⟨10, backend.ext_oneapi_cuda⟩ false bundle_state.object
    backend.ext_oneapi_cuda ⟨10, [DeviceW.mk 5], 1, bundle_state.object⟩
    rfl 1 5 (by decide)

/-- C5: for each per-device compile, build and link operation, the modern
"Exp" entry point is issued first; the legacy whole-program entry point is
issued (exactly once, directly after) precisely when the modern call
returns `UNSUPPORTED_FEATURE`; and the final result, if not success, is
raised as the `errc::build` build-failure exception — no retry, no other
call. -/
theorem exp_entry_point_fallback (o : ProgramOracle) (ctx prog dev : Nat) :
    (o.binaryType prog dev = ur_program_binary_type_t.none →
      ((o.compileExpRes prog dev ≠ ur_result_t.unsupported_feature →
        reconcileDevice o ctx bundle_state.object prog dev =
          ([Call.programGetBuildInfoBinaryType prog dev,
            Call.programCompileExp prog dev],
           if o.compileExpRes prog dev = ur_result_t.success then .ok prog
           else .error (SyclError.build_failed (o.compileExpRes prog dev)))) ∧
       (o.compileExpRes prog dev = ur_result_t.unsupported_feature →
        reconcileDevice o ctx bundle_state.object prog dev =
          ([Call.programGetBuildInfoBinaryType prog dev,
            Call.programCompileExp prog dev, Call.programCompile ctx prog],
           if o.compileRes prog = ur_result_t.success then .ok prog
           else .error (SyclError.build_failed (o.compileRes prog)))) ∧
       (o.buildExpRes prog dev ≠ ur_result_t.unsupported_feature →
        reconcileDevice o ctx bundle_state.executable prog dev =
          ([Call.programGetBuildInfoBinaryType prog dev,
            Call.programBuildExp prog dev],
           if o.buildExpRes prog dev = ur_result_t.success then .ok prog
           else .error (SyclError.build_failed (o.buildExpRes prog dev)))) ∧
       (o.buildExpRes prog dev = ur_result_t.unsupported_feature →
        reconcileDevice o ctx bundle_state.executable prog dev =
          ([Call.programGetBuildInfoBinaryType prog dev,
            Call.programBuildExp prog dev, Call.programBuild ctx prog],
           if o.buildRes prog = ur_result_t.success then .ok prog
           else .error (SyclError.build_failed (o.buildRes prog)))))) ∧
    ((o.binaryType prog dev = ur_program_binary_type_t.compiled_object ∨
      o.binaryType prog dev = ur_program_binary_type_t.library) →
      ((o.linkExpRes prog dev ≠ ur_result_t.unsupported_feature →
        reconcileDevice o ctx bundle_state.executable prog dev =
          ([Call.programGetBuildInfoBinaryType prog dev,
            Call.programLinkExp ctx dev prog],
           if o.linkExpRes prog dev = ur_result_t.success then
             .ok (o.linkExpProg prog dev)
           else .error (SyclError.build_failed (o.linkExpRes prog dev)))) ∧
       (o.linkExpRes prog dev = ur_result_t.unsupported_feature →
        reconcileDevice o ctx bundle_state.executable prog dev =
          ([Call.programGetBuildInfoBinaryType prog dev,
            Call.programLinkExp ctx dev prog, Call.programLink ctx prog],
           if o.linkRes prog = ur_result_t.success then
             .ok (o.linkProg prog)
           else .error (SyclError.build_failed (o.linkRes prog)))))) := by
  constructor
  · intro hbt
    refine ⟨fun hres => ?_, fun hres => ?_, fun hres => ?_, fun hres => ?_⟩ <;>
      (unfold reconcileDevice; rw [hbt]; dsimp only;
       simp [hres, checkUrResult])
  · intro hbt
    cases hbt with
    | inl h =>
      refine ⟨fun hres => ?_, fun hres => ?_⟩ <;>
        (unfold reconcileDevice reconcilePartial; rw [h]; dsimp only;
         simp [hres, checkUrResult])
    | inr h =>
      refine ⟨fun hres => ?_, fun hres => ?_⟩ <;>
        (unfold reconcileDevice reconcilePartial; rw [h]; dsimp only;
         simp [hres, checkUrResult])

/-- C5 witness: with the oracle whose modern compile reports
`UNSUPPORTED_FEATURE`, the (None, Object) step issues the modern call then
exactly one legacy compile. -/
theorem exp_entry_point_fallback_witness :
    reconcileDevice oracleCompileFallback 10 bundle_state.object 1 5 =
      ([Call.programGetBuildInfoBinaryType 1 5, Call.programCompileExp 1 5,
        Call.programCompile 10 1],
       if oracleCompileFallback.compileRes 1 = ur_result_t.success then
         .ok 1
       else .error (SyclError.build_failed
         (oracleCompileFallback.compileRes 1))) :=
  (((exp_entry_point_fallback oracleCompileFallback 10 1 5).1 rfl).2.1) rfl

/-- C8: the device set of the bundle returned by `make_kernel_bundle`
equals the device list discovered by querying the imported program, in the
backend's enumeration order (the operation takes no caller-supplied device
set at all). -/
theorem make_kernel_bundle_devices_discovered (po : ProgramOracle)
    (nh : Nat) (ctx : ContextModel) (keep : Bool) (st : bundle_state)
    (b : backend) (calls : List Call) (kb : KernelBundleModel)
    (h : make_kernel_bundle po nh ctx keep st b = (calls, .ok kb)) :
    kb.devices = po.programDevices.map DeviceW.mk := by
  unfold make_kernel_bundle at h
  cases hb : getUrPlugin b with
  | error e => rw [hb] at h; simp at h
  | ok u =>
    rw [hb] at h
    dsimp only at h
    cases hloop : reconcileLoop po ctx.handle st po.createdProgram
        po.programDevices with
    | mk cs r =>
      rw [hloop] at h
      cases r with
      | error e => simp at h
      | ok fin =>
        dsimp only at h
        simp only [Prod.mk.injEq, Except.ok.injEq] at h
        rw [← h.2]

/-- C8 witness: the one-device oracle run; the returned bundle's device
set is the discovered device list. -/
theorem make_kernel_bundle_devices_discovered_witness :
    ({ context := 10, devices := [DeviceW.mk 5], program := 1,
       state := bundle_state.object } : KernelBundleModel).devices =
      oracleNoneOk.programDevices.map DeviceW.mk :=
  make_kernel_bundle_devices_discovered oracleNoneOk 7
    ⟨10, backend.ext_oneapi_cuda⟩ false bundle_state.object
    backend.ext_oneapi_cuda _
    ⟨10, [DeviceW.mk 5], 1, bundle_state.object⟩ rfl
